import Mathlib

/-!
Shallow embedding of `src/twitter-search-mwe.py`, a single-file script that
builds a Twitter search query, runs it through a tweepy client, resolves the
author of each returned tweet, and prints a formatted report.

Modelling conventions:
- Python `str` values are Lean `String`; tweet and author identifiers are `Nat`;
  a `datetime` timestamp is modelled by the string that `str` renders it to.
- A Python dict such as `user.data` is an association list `List (String × String)`;
  indexing it is `List.lookup`, with a `KeyError` when the key is absent.
- Raised exceptions are an `Except PyError` result; `None` defaults are `Option`.
- The tweepy client is a record of the two API functions the script calls; the
  observable side effects (client construction, network calls, lines written to
  standard output) are an explicit `List Event` trace.
-/

namespace TwitterSearch

/-- Python exceptions the script can raise, by kind. -/
inductive PyError where
  | attributeError (msg : String)
  | keyError (key : String)
  | typeError (msg : String)
deriving DecidableEq

/-- Observable side effects of a run. -/
inductive Event where
  | clientInit
  | searchRecent (q : String)
  | getUser (id : Nat)
  | stdout (line : String)
deriving DecidableEq

/-- A tweet record as returned by the search API: the fields the script reads
from a `tweepy.Tweet` (`id`, `text`, `author_id`, `created_at`,
`referenced_tweets`, the last being `None` or a list whose elements we keep as
their rendered form). -/
structure RawTweet where
  id : Nat
  text : String
  author_id : Nat
  created_at : String
  referenced_tweets : Option (List String)
deriving DecidableEq

/-- The object `client.get_user` returns: the script only reads `user.data`,
a dict with at least a `username` entry. -/
structure UserResp where
  data : List (String × String)
deriving DecidableEq

/-- The search response object: the script only reads `response.data`. -/
structure APIResponse where
  data : List RawTweet
deriving DecidableEq

/-- The tweepy client, reduced to the two calls the script makes. -/
structure Client where
  search_recent_tweets : String → APIResponse
  get_user : Nat → UserResp

/-- The permalink built in `Tweet.__init__`, line 29:
`'https://www.twitter.com/user/status/'+str(self.id)`. -/
def permalink (id : Nat) : String :=
  "https://www.twitter.com/user/status/" ++ Nat.repr id

/-- The `Tweet` data class: fields assigned by `Tweet.__init__`. -/
structure Tweet where
  id : Nat
  text : String
  link : String
  user_id : Nat
  user_resp : UserResp
  user_name : String
  time : String
  context : Option (List String)
deriving DecidableEq

/-- `Tweet.__init__(self, tweet, user=None)`. Reading `user.data` on the
`None` default raises `AttributeError`; indexing the dict at `'username'`
raises `KeyError` when absent. Otherwise every field is copied or derived
exactly as lines 27-34 do. -/
def Tweet.make (tweet : RawTweet) (user : Option UserResp := none) :
    Except PyError Tweet :=
  match user with
  | none => .error (.attributeError "NoneType object has no attribute data")
  | some u =>
    match u.data.lookup "username" with
    | none => .error (.keyError "username")
    | some uname =>
      .ok { id := tweet.id
            text := tweet.text
            link := permalink tweet.id
            user_id := tweet.author_id
            user_resp := u
            user_name := uname
            time := tweet.created_at
            context := tweet.referenced_tweets }

/-- Rendering of a Python list by `str`, elements kept in rendered form. -/
def pyListStr (l : List String) : String :=
  "[" ++ String.intercalate ", " l ++ "]"

/-- Python truthiness of the `referenced_tweets` field: `None` and `[]` are
falsy, a non-empty list is truthy. -/
def contextTruthy : Option (List String) → Bool
  | none => false
  | some l => !l.isEmpty

/-- `Tweet.__str__`: an optional context line, then
`user_name at time:\ttext`, then a tab-indented permalink line. -/
def Tweet.str (t : Tweet) : String :=
  (if contextTruthy t.context then pyListStr (t.context.getD []) ++ "\n" else "")
    ++ t.user_name ++ " at " ++ t.time ++ ":\t" ++ t.text ++ "\n" ++ "\t" ++ t.link

/-- The `Response` wrapper object; the script only ever reads its `tweets`. -/
structure Response where
  tweets : List Tweet
deriving DecidableEq

/-- The loop body of `response_cleaner`, over `response.data`: for each tweet,
call `client.get_user(id=tweet.author_id)`, then construct a `Tweet` from it.
The first component records the arguments of the `get_user` calls in order;
an exception from the `Tweet` constructor aborts the loop. -/
def response_cleanerLoop (client : Client) :
    List RawTweet → List Nat × Except PyError (List Tweet)
  | [] => ([], .ok [])
  | t :: rest =>
    let uname := client.get_user t.author_id
    match Tweet.make t (some uname) with
    | .error e => ([t.author_id], .error e)
    | .ok tw =>
      match response_cleanerLoop client rest with
      | (calls, .error e) => (t.author_id :: calls, .error e)
      | (calls, .ok tws) => (t.author_id :: calls, .ok (tw :: tws))

/-- `response_cleaner(client, response)`: builds the list of `Tweet` objects
from `response.data`, resolving each author through `client.get_user`. -/
def response_cleaner (client : Client) (response : APIResponse) :
    List Nat × Except PyError (List Tweet) :=
  response_cleanerLoop client response.data

/-- `query_constructor()`: joins the embedded stems, each suffixed with
`ussy`, with `' OR '`, wraps in parentheses and appends `' lang:en'`. -/
def query_constructor : String :=
  let cons := ["c", "d", "g", "j", "k", "l", "m", "n", "q", "r", "t", "v", "x", "y", "z"]
  "(" ++ String.intercalate " OR " (cons.map (fun x => x ++ "ussy")) ++ ") lang:en"

/-- ASCII word character, the `\w` class of the query pattern. -/
def isWordChar (c : Char) : Bool :=
  c.isAlphanum || c = '_'

/-- A string matches `^\(\w+ussy( OR \w+ussy)*\) lang:en$`: it decomposes as a
parenthesised, `' OR '`-joined, non-empty list of `\w+`-stems suffixed with
`ussy`, followed by `' lang:en'`. -/
def matchesQuerussyPattern (s : String) : Prop :=
  ∃ stems : List String, stems ≠ [] ∧
    (∀ w ∈ stems, w ≠ "" ∧ w.data.all isWordChar) ∧
    s = "(" ++ String.intercalate " OR " (stems.map (fun x => x ++ "ussy")) ++ ") lang:en"

/-- The `Query` wrapper object. `__init__` sets only `client`; the `query`
and `response` attributes start unset (`none`). -/
structure Query where
  client : Client
  query : Option String := none
  response : Option Response := none

/-- `Query(client)`: construct with only the client attribute set. -/
def Query.init (client : Client) : Query :=
  { client := client }

/-- `Query.new(self, constructor_function)`: call the callback and store the
query string it returns. -/
def Query.new (q : Query) (constructor_function : Unit → String) : Query :=
  { q with query := some (constructor_function ()) }

/-- `Query.run(self, **kwargs)`: search recent tweets with the stored query
string, then build a `Response` from the result through `response_cleaner`
and store it. Reading the unset `query` attribute raises `AttributeError`;
an exception from the cleaner propagates before `response` is assigned.
The keyword arguments (`tweet_fields`) only select fields on the wire and are
absorbed into the `Client` model. Returns the event trace of the call next to
the outcome. -/
def Query.run (q : Query) : List Event × Except PyError Query :=
  match q.query with
  | none => ([], .error (.attributeError "Query object has no attribute query"))
  | some qs =>
    let response := q.client.search_recent_tweets qs
    match response_cleaner q.client response with
    | (calls, .error e) => (Event.searchRecent qs :: calls.map Event.getUser, .error e)
    | (calls, .ok tws) =>
      (Event.searchRecent qs :: calls.map Event.getUser,
        .ok { q with response := some ⟨tws⟩ })

/-- `Response.__str__`: prints each tweet of the response in order (the
emitted `stdout` events) and falls off the end without a `return`, so its
Python return value is `None` — modelled as `none` in the second component. -/
def Response.str (r : Response) : List Event × Option String :=
  (r.tweets.map (fun t => Event.stdout (Tweet.str t)), none)

/-- Python `print(x)` on an object whose `__str__` produced the given side
effects and return value: the effects happen first; if `__str__` returned a
string it is written out, otherwise `print` raises `TypeError`. -/
def pyPrint : List Event × Option String → List Event × Except PyError Unit
  | (evs, some s) => (evs ++ [Event.stdout s], .ok ())
  | (evs, none) => (evs, .error (.typeError "str returned non-string (type NoneType)"))

/-- The five environment variables the script reads, in read order. -/
def credKeys : List String :=
  ["BEARER_TOKEN", "CONSUMER_SECRET", "CONSUMER_KEY", "ACCESS_TOKEN", "ACCESS_TOKEN_SECRET"]

/-- The message of the error raised when a token is missing (line 157). -/
def tokensMsg : String :=
  "Tokens not found. Have you run `source .secrets`?"

/-- The credential-loading block of `__main__` (lines 150-158): read the five
environment variables in order; a `KeyError` on any of them is caught and
re-raised as `AttributeError` with `tokensMsg`. -/
def loadCredentials (env : String → Option String) :
    Except PyError (String × String × String × String × String) :=
  match env "BEARER_TOKEN" with
  | none => .error (.attributeError tokensMsg)
  | some bearer_token =>
    match env "CONSUMER_SECRET" with
    | none => .error (.attributeError tokensMsg)
    | some consumer_secret =>
      match env "CONSUMER_KEY" with
      | none => .error (.attributeError tokensMsg)
      | some consumer_key =>
        match env "ACCESS_TOKEN" with
        | none => .error (.attributeError tokensMsg)
        | some access_token =>
          match env "ACCESS_TOKEN_SECRET" with
          | none => .error (.attributeError tokensMsg)
          | some access_token_secret =>
            .ok (bearer_token, consumer_secret, consumer_key,
              access_token, access_token_secret)

/-- The `__main__` block: load credentials (aborting with no further effect on
failure), construct the client, build the query with `query_constructor`, run
it, and finally `print(query.response)`. The first component is the full
event trace, the second the outcome of the process. -/
def pyMain (env : String → Option String) (client : Client) :
    List Event × Except PyError Unit :=
  match loadCredentials env with
  | .error e => ([], .error e)
  | .ok _creds =>
    let q1 := Query.new (Query.init client) (fun _ => query_constructor)
    match Query.run q1 with
    | (evs, .error e) => (Event.clientInit :: evs, .error e)
    | (evs, .ok q2) =>
      match q2.response with
      | none =>
        (Event.clientInit :: evs,
          .error (.attributeError "Query object has no attribute response"))
      | some r =>
        match pyPrint (Response.str r) with
        | (pevs, res) => (Event.clientInit :: evs ++ pevs, res)

/-! Concrete exemplar inputs used by the witness theorems. -/

/-- An example raw tweet with empty referenced context. -/
def rawEx : RawTweet :=
  { id := 42, text := "hi", author_id := 7, created_at := "T",
    referenced_tweets := none }

/-- A second raw tweet sharing the author of `rawEx`. -/
def rawEx2 : RawTweet :=
  { id := 43, text := "yo", author_id := 7, created_at := "U",
    referenced_tweets := some [] }

/-- An example resolved user: a dict with id and username entries. -/
def userEx : UserResp :=
  { data := [("id", "7"), ("username", "bob")] }

/-- An example client: the search returns `rawEx` then `rawEx2`, and every
user resolution returns `userEx`. -/
def clientEx : Client :=
  { search_recent_tweets := fun _ => ⟨[rawEx, rawEx2]⟩
    get_user := fun _ => userEx }

/-- An example environment with all five tokens set. -/
def envEx : String → Option String := fun k =>
  if k ∈ credKeys then some ("val-" ++ k) else none

/-- An example environment missing `ACCESS_TOKEN`. -/
def envMissingEx : String → Option String := fun k =>
  if k = "ACCESS_TOKEN" then none
  else if k ∈ credKeys then some ("val-" ++ k) else none

/-- The `Tweet` object built from `rawEx` resolved against `userEx`. -/
def tweetEx : Tweet :=
  { id := 42, text := "hi", link := permalink 42, user_id := 7,
    user_resp := userEx, user_name := "bob", time := "T", context := none }

/-- The `Tweet` object built from `rawEx2` resolved against `userEx`. -/
def tweetEx2 : Tweet :=
  { id := 43, text := "yo", link := permalink 43, user_id := 7,
    user_resp := userEx, user_name := "bob", time := "U", context := some [] }

/-- The credential tuple `envEx` provides. -/
def credsEx : String × String × String × String × String :=
  ("val-BEARER_TOKEN", "val-CONSUMER_SECRET", "val-CONSUMER_KEY",
    "val-ACCESS_TOKEN", "val-ACCESS_TOKEN_SECRET")

/-- Reads a decimal digit string back to the number it denotes; the left
inverse used to show that the decimal rendering of a `Nat` is injective. -/
def decReadback (cs : List Char) : Nat :=
  cs.foldl (fun a c => a * 10 + (c.toNat - 48)) 0

/-! ### Helper lemmas: decimal rendering of naturals is injective -/

theorem toDigitsCore_acc (fuel : Nat) : ∀ (n : Nat) (ds : List Char),
    Nat.toDigitsCore 10 fuel n ds = Nat.toDigitsCore 10 fuel n [] ++ ds := by
  induction fuel with
  | zero => intro n ds; simp [Nat.toDigitsCore]
  | succ fuel ih =>
    intro n ds
    simp only [Nat.toDigitsCore]
    by_cases h : n / 10 = 0
    · simp [h]
    · simp only [h, if_false]
      rw [ih (n / 10) (Nat.digitChar (n % 10) :: ds),
        ih (n / 10) [Nat.digitChar (n % 10)]]
      simp

theorem digitChar_toNat {d : Nat} (h : d < 10) : (Nat.digitChar d).toNat = 48 + d := by
  interval_cases d <;> decide

theorem decReadback_toDigitsCore (fuel : Nat) : ∀ n : Nat, n < fuel →
    decReadback (Nat.toDigitsCore 10 fuel n []) = n := by
  induction fuel with
  | zero => intro n h; omega
  | succ fuel ih =>
    intro n h
    simp only [Nat.toDigitsCore]
    by_cases h0 : n / 10 = 0
    · simp only [h0, if_true]
      have hlt : n % 10 < 10 := Nat.mod_lt n (by omega)
      simp [decReadback, digitChar_toNat hlt]
      omega
    · simp only [h0, if_false]
      rw [toDigitsCore_acc]
      have hlt : n % 10 < 10 := Nat.mod_lt n (by omega)
      have h1 : decReadback (Nat.toDigitsCore 10 fuel (n / 10) [] ++ [Nat.digitChar (n % 10)])
          = decReadback (Nat.toDigitsCore 10 fuel (n / 10) []) * 10
            + ((Nat.digitChar (n % 10)).toNat - 48) := by
        simp [decReadback, List.foldl_append]
      rw [h1, ih (n / 10) (by omega), digitChar_toNat hlt]
      omega

theorem repr_injective : Function.Injective Nat.repr := by
  intro a b hab
  have ha := decReadback_toDigitsCore (a + 1) a (by omega)
  have hb := decReadback_toDigitsCore (b + 1) b (by omega)
  have hdata : Nat.toDigits 10 a = Nat.toDigits 10 b := by
    have := congrArg String.data hab
    simpa [Nat.repr, List.asString] using this
  rw [Nat.toDigits] at hdata
  rw [Nat.toDigits] at hdata
  rw [hdata] at ha
  exact ha.symm.trans hb

theorem permalink_injective : Function.Injective permalink := by
  intro a b h
  apply repr_injective
  have hd := congrArg String.data h
  simp only [permalink, String.data_append] at hd
  exact String.ext (List.append_cancel_left hd)

/-! ### Helper lemmas: the Tweet constructor -/

theorem Tweet.make_ok_iff (tweet : RawTweet) (u : UserResp) (tw : Tweet) :
    Tweet.make tweet (some u) = .ok tw ↔
      ∃ uname, u.data.lookup "username" = some uname ∧
        tw = { id := tweet.id, text := tweet.text, link := permalink tweet.id,
               user_id := tweet.author_id, user_resp := u, user_name := uname,
               time := tweet.created_at, context := tweet.referenced_tweets } := by
  constructor
  · intro h
    cases hu : u.data.lookup "username" with
    | none => simp [Tweet.make, hu] at h
    | some uname =>
      refine ⟨uname, rfl, ?_⟩
      simp only [Tweet.make, hu] at h
      exact (Except.ok.inj h).symm
  · rintro ⟨uname, hu, rfl⟩
    simp [Tweet.make, hu]

/-! ### Helper lemmas: the cleaner loop, Query.run and pyMain -/

theorem response_cleanerLoop_snd_ok (client : Client) : ∀ (l : List RawTweet) (tws : List Tweet),
    (response_cleanerLoop client l).snd = .ok tws →
    tws.length = l.length ∧
    ∀ (i : Nat) (hi : i < tws.length) (hj : i < l.length),
      (tws.get ⟨i, hi⟩).user_id = (l.get ⟨i, hj⟩).author_id := by
  intro l
  induction l with
  | nil =>
    intro tws h
    obtain rfl : ([] : List Tweet) = tws := Except.ok.inj h
    exact ⟨rfl, fun i hi hj => absurd hi (by simp)⟩
  | cons t rest ih =>
    intro tws h
    simp only [response_cleanerLoop] at h
    cases hmk : Tweet.make t (some (client.get_user t.author_id)) with
    | error e => rw [hmk] at h; simp at h
    | ok tw =>
      rw [hmk] at h
      cases hloop : response_cleanerLoop client rest with
      | mk calls res =>
        rw [hloop] at h
        cases res with
        | error e => simp at h
        | ok tws2 =>
          obtain rfl : tw :: tws2 = tws := Except.ok.inj h
          have hrest := ih tws2 (by rw [hloop])
          refine ⟨by simp [hrest.1], ?_⟩
          intro i hi hj
          match i with
          | 0 =>
            obtain ⟨uname, _, rfl⟩ :=
              (Tweet.make_ok_iff t (client.get_user t.author_id) tw).1 hmk
            rfl
          | i + 1 =>
            exact hrest.2 i (by simpa using hi) (by simpa using hj)

theorem response_cleanerLoop_calls (client : Client) : ∀ l : List RawTweet,
    (∀ t ∈ l, ((client.get_user t.author_id).data.lookup "username").isSome) →
    (response_cleanerLoop client l).fst = l.map (fun t => t.author_id) := by
  intro l
  induction l with
  | nil => intro _; rfl
  | cons t rest ih =>
    intro hres
    obtain ⟨uname, hu⟩ :=
      Option.isSome_iff_exists.1 (hres t (List.mem_cons_self t rest))
    have hmk := (Tweet.make_ok_iff t (client.get_user t.author_id) _).2 ⟨uname, hu, rfl⟩
    simp only [response_cleanerLoop, hmk]
    cases hloop : response_cleanerLoop client rest with
    | mk calls res =>
      have hcalls : calls = rest.map (fun t => t.author_id) := by
        have := ih (fun t2 ht2 => hres t2 (List.mem_cons_of_mem t ht2))
        rw [hloop] at this
        exact this
      cases res <;> simp [hcalls]

theorem run_none_eq (q : Query) (h : q.query = none) :
    Query.run q = ([], .error (.attributeError "Query object has no attribute query")) := by
  simp [Query.run, h]

theorem run_ok_eq (q : Query) (qs : String) (tws : List Tweet)
    (hq : q.query = some qs)
    (hok : (response_cleaner q.client (q.client.search_recent_tweets qs)).snd = .ok tws) :
    Query.run q =
      (Event.searchRecent qs ::
        ((response_cleaner q.client (q.client.search_recent_tweets qs)).fst.map Event.getUser),
       .ok { q with response := some ⟨tws⟩ }) := by
  have hpair : response_cleaner q.client (q.client.search_recent_tweets qs)
      = ((response_cleaner q.client (q.client.search_recent_tweets qs)).fst, Except.ok tws) := by
    rw [← hok]
  simp only [Query.run, hq]
  rw [hpair]

theorem run_error_eq (q : Query) (qs : String) (e : PyError)
    (hq : q.query = some qs)
    (herr : (response_cleaner q.client (q.client.search_recent_tweets qs)).snd = .error e) :
    Query.run q =
      (Event.searchRecent qs ::
        ((response_cleaner q.client (q.client.search_recent_tweets qs)).fst.map Event.getUser),
       .error e) := by
  have hpair : response_cleaner q.client (q.client.search_recent_tweets qs)
      = ((response_cleaner q.client (q.client.search_recent_tweets qs)).fst, Except.error e) := by
    rw [← herr]
  simp only [Query.run, hq]
  rw [hpair]

theorem pyMain_trace_eq (env : String → Option String) (client : Client)
    (creds : String × String × String × String × String) (tws : List Tweet)
    (hload : loadCredentials env = .ok creds)
    (hok : (response_cleaner client (client.search_recent_tweets query_constructor)).snd
      = .ok tws) :
    pyMain env client =
      (Event.clientInit :: Event.searchRecent query_constructor ::
        ((response_cleaner client (client.search_recent_tweets query_constructor)).fst.map
            Event.getUser
          ++ tws.map (fun t => Event.stdout (Tweet.str t))),
       .error (.typeError "str returned non-string (type NoneType)")) := by
  have hrun := run_ok_eq (Query.new (Query.init client) (fun _ => query_constructor))
    query_constructor tws rfl hok
  simp only [pyMain, hload, hrun, pyPrint, Response.str]
  rfl

/-! ### Claim theorems -/

/-- C1: `query_constructor` is pure and deterministic, returns exactly the
stems of the embedded list each suffixed with `ussy`, joined with `' OR '` in
stem-list order, wrapped in parentheses, followed by `' lang:en'`; the result
matches the pattern and equals the expected literal. -/
theorem query_constructor_spec :
    query_constructor =
      "(cussy OR dussy OR gussy OR jussy OR kussy OR lussy OR mussy OR nussy OR qussy OR russy OR tussy OR vussy OR xussy OR yussy OR zussy) lang:en"
    ∧ matchesQuerussyPattern query_constructor := by
  refine ⟨rfl, ⟨["c", "d", "g", "j", "k", "l", "m", "n", "q", "r", "t", "v", "x", "y", "z"],
    by decide, by decide, rfl⟩⟩

/-- C3: a raw result whose referenced context is empty (`None` or `[]`)
renders with no context line, as exactly `username at timestamp:\ttext`
followed by a newline and the tab-indented permalink line. -/
theorem formatter_no_context (raw : RawTweet) (u : UserResp) (uname : String)
    (tw : Tweet)
    (hctx : raw.referenced_tweets = none ∨ raw.referenced_tweets = some [])
    (hu : u.data.lookup "username" = some uname)
    (hmk : Tweet.make raw (some u) = .ok tw) :
    Tweet.str tw =
      uname ++ " at " ++ raw.created_at ++ ":\t" ++ raw.text ++ "\n"
        ++ "\t" ++ permalink raw.id := by
  obtain ⟨uname2, hu2, rfl⟩ := (Tweet.make_ok_iff raw u tw).1 hmk
  rw [hu] at hu2
  obtain rfl : uname = uname2 := Option.some.inj hu2
  rcases hctx with h | h <;>
    simp [Tweet.str, contextTruthy, h, String.empty_append]

/-- Witness for C3, at the exemplar: a concrete tweet with empty context
renders to the expected literal. -/
theorem formatter_no_context_witness :
    Tweet.str tweetEx = "bob at T:\thi\n\thttps://www.twitter.com/user/status/42" :=
  (formatter_no_context rawEx userEx "bob" tweetEx (Or.inl rfl) rfl rfl).trans
    (by decide)

/-- C4: the permalink is a deterministic function of the result id and is
injective: raw results with distinct ids get distinct permalinks, equal ids
get equal permalinks, and the link stored by the constructor is the permalink
of the raw id. -/
theorem permalink_deterministic_injective (t u : RawTweet) :
    (t.id ≠ u.id → permalink t.id ≠ permalink u.id) ∧
    (t.id = u.id → permalink t.id = permalink u.id) ∧
    (∀ (user : Option UserResp) (tw : Tweet),
      Tweet.make t user = .ok tw → tw.link = permalink t.id) := by
  refine ⟨fun hne he => hne (permalink_injective he), fun he => by rw [he], ?_⟩
  intro user tw hmk
  cases user with
  | none => simp [Tweet.make] at hmk
  | some uu =>
    obtain ⟨uname, _, rfl⟩ := (Tweet.make_ok_iff t uu tw).1 hmk
    rfl

/-- Witness for C4, at the exemplars: ids 42 and 43 give distinct permalinks,
and the constructed link for the exemplar tweet is the permalink of its id. -/
theorem permalink_deterministic_injective_witness :
    permalink rawEx.id ≠ permalink rawEx2.id ∧ tweetEx.link = permalink rawEx.id :=
  ⟨(permalink_deterministic_injective rawEx rawEx2).1 (by decide),
    (permalink_deterministic_injective rawEx rawEx2).2.2 (some userEx) tweetEx rfl⟩

/-- C9: the user parameter of the Tweet constructor is effectively required:
with the `None` default the constructor fails with an `AttributeError`, and
it succeeds exactly when the given profile has a `username` entry. -/
theorem tweet_user_required :
    (∀ tweet : RawTweet,
      Tweet.make tweet = .error (.attributeError "NoneType object has no attribute data")) ∧
    (∀ (tweet : RawTweet) (u : UserResp),
      (∃ tw, Tweet.make tweet (some u) = .ok tw) ↔ (u.data.lookup "username").isSome) := by
  refine ⟨fun tweet => rfl, fun tweet u => ?_⟩
  constructor
  · rintro ⟨tw, htw⟩
    obtain ⟨uname, hu, _⟩ := (Tweet.make_ok_iff tweet u tw).1 htw
    simp [hu]
  · intro h
    obtain ⟨uname, hu⟩ := Option.isSome_iff_exists.1 h
    exact ⟨_, (Tweet.make_ok_iff tweet u _).2 ⟨uname, hu, rfl⟩⟩

/-- Witness for C9, at the exemplars: constructing with the default user
fails, while the exemplar profile (which has a username) succeeds. -/
theorem tweet_user_required_witness :
    Tweet.make rawEx = .error (.attributeError "NoneType object has no attribute data")
    ∧ ∃ tw, Tweet.make rawEx (some userEx) = .ok tw :=
  ⟨tweet_user_required.1 rawEx,
    (tweet_user_required.2 rawEx userEx).mpr (by decide)⟩

/-- Missing any one of the five environment variables makes credential
loading fail with the fatal error carrying `tokensMsg`. -/
theorem loadCredentials_missing (env : String → Option String) (k : String)
    (hk : k ∈ credKeys) (h : env k = none) :
    loadCredentials env = .error (.attributeError tokensMsg) := by
  simp only [credKeys, List.mem_cons, List.not_mem_nil, or_false] at hk
  rcases hk with rfl | rfl | rfl | rfl | rfl <;>
    unfold loadCredentials <;> (repeat' split) <;> simp_all

/-- C2: with all five environment variables set, loading yields exactly those
five values; with any one missing, loading fails with the configuration error
naming the provisioning step, and the run performs no side effect at all
(no client construction, no network call: the event trace is empty). -/
theorem credential_loading :
    (∀ (env : String → Option String) (bt cs ck atk ats : String),
      env "BEARER_TOKEN" = some bt → env "CONSUMER_SECRET" = some cs →
      env "CONSUMER_KEY" = some ck → env "ACCESS_TOKEN" = some atk →
      env "ACCESS_TOKEN_SECRET" = some ats →
      loadCredentials env = .ok (bt, cs, ck, atk, ats)) ∧
    (∀ (env : String → Option String) (client : Client) (k : String),
      k ∈ credKeys → env k = none →
      loadCredentials env = .error (.attributeError tokensMsg) ∧
      pyMain env client = ([], .error (.attributeError tokensMsg))) := by
  constructor
  · intro env bt cs ck atk ats h1 h2 h3 h4 h5
    simp [loadCredentials, h1, h2, h3, h4, h5]
  · intro env client k hk h
    have herr := loadCredentials_missing env k hk h
    exact ⟨herr, by simp [pyMain, herr]⟩

/-- Witness for C2, at the exemplars: the fully-set environment loads the
expected tuple; the environment missing `ACCESS_TOKEN` fails with the
configuration error and an empty event trace. -/
theorem credential_loading_witness :
    loadCredentials envEx = .ok credsEx ∧
    pyMain envMissingEx clientEx = ([], .error (.attributeError tokensMsg)) :=
  ⟨credential_loading.1 envEx "val-BEARER_TOKEN" "val-CONSUMER_SECRET"
      "val-CONSUMER_KEY" "val-ACCESS_TOKEN" "val-ACCESS_TOKEN_SECRET"
      (by decide) (by decide) (by decide) (by decide) (by decide),
    (credential_loading.2 envMissingEx clientEx "ACCESS_TOKEN"
      (by decide) (by decide)).2⟩

/-- C5: every `Tweet` the cleaner constructs carries the `author_id` of the
raw result it was derived from (positionally), and after a successful run the
batch stored in the session is exactly the cleaner output, so the invariant
holds for the session batch as well. -/
theorem formatted_author_id_invariant :
    (∀ (client : Client) (resp : APIResponse) (tws : List Tweet),
      (response_cleaner client resp).snd = .ok tws →
      tws.length = resp.data.length ∧
      ∀ (i : Nat) (hi : i < tws.length) (hj : i < resp.data.length),
        (tws.get ⟨i, hi⟩).user_id = (resp.data.get ⟨i, hj⟩).author_id) ∧
    (∀ (q : Query) (qs : String) (q2 : Query) (r : Response),
      q.query = some qs → (Query.run q).snd = .ok q2 → q2.response = some r →
      (response_cleaner q.client (q.client.search_recent_tweets qs)).snd = .ok r.tweets) := by
  constructor
  · intro client resp tws h
    exact response_cleanerLoop_snd_ok client resp.data tws h
  · intro q qs q2 r hq hrun hr
    cases hres : (response_cleaner q.client (q.client.search_recent_tweets qs)).snd with
    | error e =>
      rw [run_error_eq q qs e hq hres] at hrun
      simp at hrun
    | ok tws =>
      rw [run_ok_eq q qs tws hq hres] at hrun
      obtain rfl : { q with response := some ⟨tws⟩ } = q2 := Except.ok.inj hrun
      obtain rfl : Response.mk tws = r := Option.some.inj hr
      rfl

/-- Witness for C5, at the exemplars: the cleaner output has the length of
the raw batch, and the second formatted post carries the author id of the
second raw result. -/
theorem formatted_author_id_invariant_witness :
    ([tweetEx, tweetEx2] : List Tweet).length = ([rawEx, rawEx2] : List RawTweet).length ∧
    (([tweetEx, tweetEx2] : List Tweet).get ⟨1, by decide⟩).user_id
      = (([rawEx, rawEx2] : List RawTweet).get ⟨1, by decide⟩).author_id :=
  have h := formatted_author_id_invariant.1 clientEx ⟨[rawEx, rawEx2]⟩
    [tweetEx, tweetEx2] rfl
  ⟨h.1, h.2 1 (by decide) (by decide)⟩

/-- C6: on a batch every member of which resolves to a profile carrying a
username, `client.get_user` is called exactly once per raw result, in batch
order, with no deduplication of repeated authors: the call trace is exactly
the list of author ids of the batch. -/
theorem resolver_called_once_per_result (client : Client) (resp : APIResponse)
    (hres : ∀ t ∈ resp.data,
      ((client.get_user t.author_id).data.lookup "username").isSome) :
    (response_cleaner client resp).fst = resp.data.map (fun t => t.author_id) :=
  response_cleanerLoop_calls client resp.data hres

/-- Witness for C6, at the exemplars: a batch of two raw results sharing
author id 7 produces two resolver calls, one per result. -/
theorem resolver_called_once_per_result_witness :
    (response_cleaner clientEx ⟨[rawEx, rawEx2]⟩).fst = [7, 7] :=
  (resolver_called_once_per_result clientEx ⟨[rawEx, rawEx2]⟩ (by decide)).trans
    (by decide)

/-- C10: running before `new` has stored a query string fails with an
`AttributeError`; `new` stores exactly the string the callback returns; and
under a stored query, `run` issues the search with that string and overwrites
the session response with the new batch, holding at most one query/response
pair. -/
theorem run_requires_new :
    (∀ q : Query, q.query = none →
      (Query.run q).snd = .error (.attributeError "Query object has no attribute query")) ∧
    (∀ client : Client,
      (Query.run (Query.init client)).snd
        = .error (.attributeError "Query object has no attribute query")) ∧
    (∀ (q : Query) (ctor : Unit → String), (Query.new q ctor).query = some (ctor ())) ∧
    (∀ (q : Query) (qs : String) (tws : List Tweet),
      q.query = some qs →
      (response_cleaner q.client (q.client.search_recent_tweets qs)).snd = .ok tws →
      Query.run q =
        (Event.searchRecent qs ::
          ((response_cleaner q.client (q.client.search_recent_tweets qs)).fst.map
            Event.getUser),
         .ok { q with response := some ⟨tws⟩ })) := by
  refine ⟨fun q h => by rw [run_none_eq q h], fun client => by rw [run_none_eq _ rfl],
    fun q ctor => rfl, fun q qs tws hq hok => run_ok_eq q qs tws hq hok⟩

/-- Witness for C10, at the exemplars: a fresh `Query` fails to run, while
after `new` the run succeeds and stores the cleaned batch as the response. -/
theorem run_requires_new_witness :
    (Query.run (Query.init clientEx)).snd
      = .error (.attributeError "Query object has no attribute query") ∧
    (Query.run (Query.new (Query.init clientEx) (fun _ => query_constructor))).snd
      = .ok { Query.new (Query.init clientEx) (fun _ => query_constructor) with
              response := some ⟨[tweetEx, tweetEx2]⟩ } :=
  ⟨run_requires_new.2.1 clientEx,
    by rw [run_requires_new.2.2.2 (Query.new (Query.init clientEx)
      (fun _ => query_constructor)) query_constructor [tweetEx, tweetEx2] rfl rfl]⟩

/-- C7: rendering a response writes exactly the formatted posts of its batch,
in batch order, to standard output (there is no other rendering effect), and
a full run ends by printing the response stored in the session: the trace of
the final step is exactly the per-post lines after the client and network
events. -/
theorem response_render_trace :
    (∀ r : Response,
      (Response.str r).fst = r.tweets.map (fun t => Event.stdout (Tweet.str t))) ∧
    (∀ (env : String → Option String) (client : Client)
      (creds : String × String × String × String × String) (tws : List Tweet),
      loadCredentials env = .ok creds →
      (response_cleaner client (client.search_recent_tweets query_constructor)).snd
        = .ok tws →
      (pyMain env client).fst =
        Event.clientInit :: Event.searchRecent query_constructor ::
          ((response_cleaner client (client.search_recent_tweets query_constructor)).fst.map
              Event.getUser
            ++ tws.map (fun t => Event.stdout (Tweet.str t)))) := by
  refine ⟨fun r => rfl, fun env client creds tws hload hok => ?_⟩
  rw [pyMain_trace_eq env client creds tws hload hok]

/-- Witness for C7, at the exemplars: the full-run trace is the client event,
the search, one resolver call per raw result, then one stdout line per post. -/
theorem response_render_trace_witness :
    (pyMain envEx clientEx).fst =
      Event.clientInit :: Event.searchRecent query_constructor ::
        ((response_cleaner clientEx (clientEx.search_recent_tweets query_constructor)).fst.map
            Event.getUser
          ++ [tweetEx, tweetEx2].map (fun t => Event.stdout (Tweet.str t))) :=
  response_render_trace.2 envEx clientEx credsEx [tweetEx, tweetEx2] rfl rfl

/-- C8: `Response.__str__` returns `None` rather than a string, so on any run
whose response is non-empty the final `print(query.response)` raises a
`TypeError` — after the per-tweet lines have already been written — and the
process terminates abnormally even though the query succeeded. -/
theorem response_str_returns_none :
    (∀ r : Response, (Response.str r).snd = none) ∧
    (∀ (env : String → Option String) (client : Client)
      (creds : String × String × String × String × String) (tws : List Tweet),
      loadCredentials env = .ok creds →
      (response_cleaner client (client.search_recent_tweets query_constructor)).snd
        = .ok tws →
      tws ≠ [] →
      (pyMain env client).snd
        = .error (.typeError "str returned non-string (type NoneType)") ∧
      (pyMain env client).fst =
        Event.clientInit :: Event.searchRecent query_constructor ::
          ((response_cleaner client (client.search_recent_tweets query_constructor)).fst.map
              Event.getUser
            ++ tws.map (fun t => Event.stdout (Tweet.str t)))) := by
  refine ⟨fun r => rfl, fun env client creds tws hload hok _ => ?_⟩
  rw [pyMain_trace_eq env client creds tws hload hok]
  exact ⟨rfl, rfl⟩

/-- Witness for C8, at the exemplars: the successful run over a two-tweet
batch ends in the `TypeError` from `print`, its lines already written. -/
theorem response_str_returns_none_witness :
    (pyMain envEx clientEx).snd
      = .error (.typeError "str returned non-string (type NoneType)") :=
  (response_str_returns_none.2 envEx clientEx credsEx [tweetEx, tweetEx2]
    rfl rfl (by decide)).1

end TwitterSearch
